import Mathlib

/-!
Verification of the nih-plug `xtask` bundler and the `strlcpy` helper.

The definitions below are shallow embeddings of the Rust sources
`xtask/src/main.rs` and `src/wrapper/util.rs`.  Paths are modelled as
plain strings joined with `/`, byte buffers as `List Nat`, and the
filesystem side effects of the bundler as an explicit list of actions
interpreted over an explicit filesystem state.
-/

namespace NihPlug

/-- The target we're generating a plugin for, from `xtask/src/main.rs`. -/
inductive CompilationTarget where
  | Linux64
  | Linux32
  | Mac64
  | Windows64
  | Windows32
deriving DecidableEq, Repr

/-- The base directory for the bundler's output (`BUNDLE_HOME`). -/
def BUNDLE_HOME : String := "target/bundled"

/-- `compilation_target` from `xtask/src/main.rs`.  The `None` branch of the
source selects the host target through compile-time `cfg` attributes; the
host target is therefore passed as an explicit parameter.  The `Some`
branch is the source's match on the three recognized triple literals. -/
def compilation_target (cross_compile_target : Option String)
    (host : CompilationTarget) : Except String CompilationTarget :=
  match cross_compile_target with
  | some target =>
      if target = "x86_64-unknown-linux-gnu" then .ok .Linux64
      else if target = "x86_64-apple-darwin" then .ok .Mac64
      else if target = "x86_64-pc-windows-gnu" then .ok .Windows64
      else .error ("Unhandled cross-compilation target: " ++ target)
  | none => .ok host

/-- `target_base` from `xtask/src/main.rs`: the base directory for the
compiled binaries, namespaced by the cross-compilation triple. -/
def target_base (cross_compile_target : Option String) : Except String String :=
  match cross_compile_target with
  | some target =>
      if target = "x86_64-unknown-linux-gnu" then .ok "target/x86_64-unknown-linux-gnu"
      else if target = "x86_64-pc-windows-gnu" then .ok "target/x86_64-pc-windows-gnu"
      else if target = "x86_64-apple-darwin" then .ok "target/x86_64-apple-darwin"
      else .error ("Unhandled cross-compilation target: " ++ target)
  | none => .ok "target"

/-- `library_basename` from `xtask/src/main.rs`: the file name of the
compiled library for a `cdylib` crate. -/
def library_basename (package : String) (target : CompilationTarget) : String :=
  match target with
  | .Linux64 | .Linux32 => "lib" ++ package ++ ".so"
  | .Mac64 => "lib" ++ package ++ ".dylib"
  | .Windows64 | .Windows32 => package ++ ".dll"

/-- `vst3_bundle_library_name` from `xtask/src/main.rs`: the full path to the
library file inside of a VST3 bundle, including the leading `.vst3`
directory. -/
def vst3_bundle_library_name (package : String) (target : CompilationTarget) : String :=
  match target with
  | .Linux64 => package ++ ".vst3/Contents/x86_64-linux/" ++ package ++ ".so"
  | .Linux32 => package ++ ".vst3/Contents/i386-linux/" ++ package ++ ".so"
  | .Mac64 => package ++ ".vst3/Contents/MacOS/" ++ package
  | .Windows64 => package ++ ".vst3/Contents/x86_64-win/" ++ package ++ ".vst3"
  | .Windows32 => package ++ ".vst3/Contents/x86-win/" ++ package ++ ".vst3"

/-- The last `/`-separated component of a path string: the characters after
the final `/` (the whole string when there is no `/`). -/
def lastPathComponent (s : String) : String :=
  ⟨(s.data.reverse.takeWhile (fun c => c ≠ '/')).reverse⟩

/-- The parent of a path string, as computed by Rust's `Path::parent`: the
characters before the final `/`. -/
def parentPath (s : String) : String :=
  ⟨((s.data.reverse.dropWhile (fun c => c ≠ '/')).drop 1).reverse⟩

/-- The expected on-disk location of the compiled library, from the body of
`bundle` in `xtask/src/main.rs`: `target_base` joined with the build
profile directory and `library_basename`. -/
def built_library_path (package : String) (target : CompilationTarget)
    (is_release_build : Bool) (cross_compile_target : Option String) :
    Except String String := do
  let base ← target_base cross_compile_target
  pure (base ++ "/" ++ (if is_release_build then "release" else "debug") ++ "/"
        ++ library_basename package target)

/-! ### Filesystem effects of `bundle`

The stateful tail of `bundle` (directory creation, artifact placement, the
macOS auxiliary files and the diagnostics printed with `eprintln!`) is
embedded as an explicit list of filesystem actions. -/

/-- One filesystem side effect of the bundler. -/
inductive FsAction where
  /-- `fs::create_dir_all` (succeeds when the tree already exists). -/
  | createDirAll (path : String)
  /-- `reflink::reflink_or_copy` of the artifact into the bundle. -/
  | copy (src dst : String)
  /-- `fs::write` (creates or truncates the file). -/
  | write (path contents : String)
  /-- An `eprintln!` diagnostic; no filesystem effect. -/
  | log (msg : String)
deriving DecidableEq, Repr

/-! The literal chunks of the `Info.plist` template from
`maybe_create_macos_vst3_bundle`, split at the points where `{package}` is
substituted (and, for convenience of the proofs, at the identifier and key
tags). -/

/-- `Info.plist` template up to the `CFBundleExecutable` key. -/
def plistHead : String :=
  "<?xml version=\"1.0\" encoding=\"UTF-8\"?>\n\n<!DOCTYPE plist PUBLIC \"-//Apple//DTD PLIST 1.0//EN\" \"http://www.apple.com/DTDs/PropertyList-1.0.dtd\">\n<plist>\n  <dict>\n    "

/-- The `CFBundleExecutable` key and its opening value tag. -/
def plistKeyExec : String := "<key>CFBundleExecutable</key>\n    <string>"

/-- From the end of the executable value to the opening tag of the
`CFBundleIdentifier` value. -/
def plistIcon : String :=
  "</string>\n    <key>CFBundleIconFile</key>\n    <string></string>\n    <key>CFBundleIdentifier</key>\n    <string>"

/-- The fixed reverse-domain-name identifier template. -/
def plistIdentDomain : String := "com.nih-plug."

/-- Closing tag plus indentation between two substituted fields. -/
def plistSep : String := "</string>\n    "

/-- The `CFBundleName` key and its opening value tag. -/
def plistKeyName : String := "<key>CFBundleName</key>\n    <string>"

/-- The `CFBundleDisplayName` key and its opening value tag. -/
def plistKeyDisplay : String := "<key>CFBundleDisplayName</key>\n    <string>"

/-- The fixed tail of the `Info.plist` template after the last substituted
field. -/
def plistTail : String :=
  "</string>\n    <key>CFBundlePackageType</key>\n    <string>BNDL</string>\n    <key>CFBundleSignature</key>\n    <string>????</string>\n    <key>CFBundleShortVersionString</key>\n    <string>1.0.0</string>\n    <key>CFBundleVersion</key>\n    <string>1.0.0</string>\n    <key>NSHumanReadableCopyright</key>\n    <string></string>\n    <key>NSHighResolutionCapable</key>\n    <true/>\n  </dict>\n</plist>\n"

/-- The full `Info.plist` contents written by
`maybe_create_macos_vst3_bundle`, with `package` substituted into the
`CFBundleExecutable`, `CFBundleIdentifier`, `CFBundleName` and
`CFBundleDisplayName` fields. -/
def infoPlistContent (package : String) : String :=
  plistHead ++ plistKeyExec ++ package
    ++ plistIcon ++ plistIdentDomain ++ package
    ++ plistSep ++ plistKeyName ++ package
    ++ plistSep ++ plistKeyDisplay ++ package
    ++ plistTail

/-- `maybe_create_macos_vst3_bundle` from `xtask/src/main.rs`: on the
`Mac64` target it writes `PkgInfo` and `Info.plist` under
`<BUNDLE_HOME>/<package>.vst3/Contents/`; on every other target it is a
no-op.  Note that the raw `package` identifier is used, not the
`bundler.toml` name override. -/
def maybe_create_macos_vst3_bundle (package : String) (target : CompilationTarget) :
    List FsAction :=
  if target ≠ CompilationTarget.Mac64 then []
  else
    [ .write (BUNDLE_HOME ++ "/" ++ package ++ ".vst3/Contents/PkgInfo") "BNDL????",
      .write (BUNDLE_HOME ++ "/" ++ package ++ ".vst3/Contents/Info.plist")
        (infoPlistContent package) ]

/-- The filesystem actions of the tail of `bundle` (everything after the
artifact has been located and classified): `package` is the raw package
identifier, `bundle_name` the (possibly overridden) bundle name,
`lib_path` the located artifact and `bundle_vst3` the result of the
`GetPluginFactory` symbol query. -/
def bundle_actions (package bundle_name lib_path : String)
    (target : CompilationTarget) (bundle_vst3 : Bool) : List FsAction :=
  FsAction.log "" ::
    (if bundle_vst3 then
      let vst3_lib_path :=
        BUNDLE_HOME ++ "/" ++ vst3_bundle_library_name bundle_name target
      let vst3_bundle_home := parentPath (parentPath (parentPath vst3_lib_path))
      [ .createDirAll (parentPath vst3_lib_path),
        .copy lib_path vst3_lib_path ]
      ++ maybe_create_macos_vst3_bundle package target
      ++ [ .log ("Created a VST3 bundle at '" ++ vst3_bundle_home ++ "'") ]
    else
      [ .log "Not creating any plugin bundles because the package does not export any plugins" ])

end NihPlug

namespace NihPlug

/-- Claim C1: for every `CompilationTarget` value the bundle library path
computed by `vst3_bundle_library_name` contains exactly the platform
directory token `x86_64-linux`, `i386-linux`, `MacOS`, `x86_64-win` or
`x86-win` respectively, directly under `<name>.vst3/Contents/`, as an
exact string match. -/
theorem vst3_bundle_platform_dir_exact :
    ∀ name : String,
      vst3_bundle_library_name name .Linux64
        = name ++ ".vst3/Contents/" ++ "x86_64-linux" ++ "/" ++ (name ++ ".so")
      ∧ vst3_bundle_library_name name .Linux32
        = name ++ ".vst3/Contents/" ++ "i386-linux" ++ "/" ++ (name ++ ".so")
      ∧ vst3_bundle_library_name name .Mac64
        = name ++ ".vst3/Contents/" ++ "MacOS" ++ "/" ++ name
      ∧ vst3_bundle_library_name name .Windows64
        = name ++ ".vst3/Contents/" ++ "x86_64-win" ++ "/" ++ (name ++ ".vst3")
      ∧ vst3_bundle_library_name name .Windows32
        = name ++ ".vst3/Contents/" ++ "x86-win" ++ "/" ++ (name ++ ".vst3") := by
  intro name
  refine ⟨?_, ?_, ?_, ?_, ?_⟩ <;>
    simp [vst3_bundle_library_name, String.append_assoc]

/-- Claim C2, counterexample: the claim says that on non-Windows targets the
library inside the bundle is renamed to the bundle name with no extension,
and that on Windows targets it keeps its standard extension (`.dll`, per
`library_basename`).  At package `"foo"` on `Linux64` the file inside the
bundle is `foo.so`, not `foo`; on `Windows64` it is `foo.vst3`, not
`foo.dll`. -/
theorem vst3_library_file_name_claim_false :
    lastPathComponent (vst3_bundle_library_name "foo" .Linux64) = "foo.so"
    ∧ "foo.so" ≠ "foo"
    ∧ lastPathComponent (vst3_bundle_library_name "foo" .Windows64) = "foo.vst3"
    ∧ library_basename "foo" .Windows64 = "foo.dll"
    ∧ "foo.vst3" ≠ "foo.dll" := by
  refine ⟨by decide, by decide, by decide, by decide, by decide⟩

/-- Claim C2, amended: inside the bundle the library's base name always
matches the bundle name, but the extension is target-specific: `.so` is
kept on the Linux targets, the Mac64 file has no extension, and on the
Windows targets the standard `.dll` extension is replaced by `.vst3`. -/
theorem vst3_library_file_name_amended :
    ∀ name : String,
      vst3_bundle_library_name name .Linux64
        = (name ++ ".vst3/Contents/x86_64-linux/") ++ (name ++ ".so")
      ∧ vst3_bundle_library_name name .Linux32
        = (name ++ ".vst3/Contents/i386-linux/") ++ (name ++ ".so")
      ∧ vst3_bundle_library_name name .Mac64
        = (name ++ ".vst3/Contents/MacOS/") ++ name
      ∧ vst3_bundle_library_name name .Windows64
        = (name ++ ".vst3/Contents/x86_64-win/") ++ (name ++ ".vst3")
      ∧ vst3_bundle_library_name name .Windows32
        = (name ++ ".vst3/Contents/x86-win/") ++ (name ++ ".vst3")
      ∧ library_basename name .Windows64 = name ++ ".dll"
      ∧ library_basename name .Windows32 = name ++ ".dll" := by
  intro name
  refine ⟨?_, ?_, ?_, ?_, ?_, ?_, ?_⟩ <;>
    simp [vst3_bundle_library_name, library_basename, String.append_assoc]

/-- Claim C4: with an explicitly supplied triple, `compilation_target`
succeeds exactly on the three recognized triples, mapping each to its
`CompilationTarget`; every other string is rejected with the
unknown-target error and no fallback target is substituted. -/
theorem compilation_target_explicit_triple :
    ∀ (s : String) (host : CompilationTarget),
      (s = "x86_64-unknown-linux-gnu" →
        compilation_target (some s) host = .ok .Linux64)
      ∧ (s = "x86_64-apple-darwin" →
        compilation_target (some s) host = .ok .Mac64)
      ∧ (s = "x86_64-pc-windows-gnu" →
        compilation_target (some s) host = .ok .Windows64)
      ∧ (s ≠ "x86_64-unknown-linux-gnu" → s ≠ "x86_64-apple-darwin" →
          s ≠ "x86_64-pc-windows-gnu" →
        compilation_target (some s) host
          = .error ("Unhandled cross-compilation target: " ++ s)) := by
  intro s host
  refine ⟨?_, ?_, ?_, ?_⟩
  · rintro rfl; rfl
  · rintro rfl; rfl
  · rintro rfl; rfl
  · intro h1 h2 h3
    simp [compilation_target, h1, h2, h3]

/-- Witness for C4 at the concrete unrecognized triple
`riscv64-unknown-linux-gnu`. -/
theorem compilation_target_explicit_triple_witness :
    compilation_target (some "riscv64-unknown-linux-gnu") CompilationTarget.Linux64
      = .error ("Unhandled cross-compilation target: " ++ "riscv64-unknown-linux-gnu") :=
  (compilation_target_explicit_triple "riscv64-unknown-linux-gnu"
    CompilationTarget.Linux64).2.2.2 (by decide) (by decide) (by decide)

/-! ### The multi-package loop of `main`

In `main` the `bundle` command runs `bundle(&packages[0], ..)?` and then
`bundle(&package, ..)?` for every further package; the `?` operator
propagates an error immediately.  The per-package work is abstracted as a
function from the package name to a result. -/

/-- The package loop of `main`: bundle each package in order, propagating
the first error (the source's `bundle(..)?` calls). -/
def bundle_loop (f : String → Except String Unit) : List String → Except String Unit
  | [] => .ok ()
  | p :: rest => do
      let _ ← f p
      bundle_loop f rest

/-- The packages for which `bundle` is actually invoked by `bundle_loop`:
every package up to and including the first failing one. -/
def bundle_attempts (f : String → Except String Unit) : List String → List String
  | [] => []
  | p :: rest =>
      p :: (match f p with
            | .ok _ => bundle_attempts f rest
            | .error _ => [])

/-- A bundler for which package `"a"` fails and every other package
succeeds. -/
def failingBundler : String → Except String Unit :=
  fun p => if p = "a" then .error "Could not build a" else .ok ()

/-- Claim C5, counterexample: the claim says a fatal failure on one package
does not abort the processing of subsequent enumerated packages.  With
packages `["a", "b"]` where bundling `"a"` fails, the loop of `main` stops
after `"a"`: `"b"` is never bundled, and the invocation fails. -/
theorem bundle_loop_claim_false :
    bundle_attempts failingBundler ["a", "b"] = ["a"]
    ∧ bundle_attempts failingBundler ["a", "b"] ≠ ["a", "b"]
    ∧ bundle_loop failingBundler ["a", "b"] = .error "Could not build a" := by
  refine ⟨by decide, by decide, rfl⟩

/-- Claim C5, amended: a fatal failure while bundling one package aborts the
invocation immediately — subsequent packages are not processed — and the
invocation reports that failure (fail-fast, not best-effort, semantics). -/
theorem bundle_loop_fail_fast :
    ∀ (f : String → Except String Unit) (p : String) (rest : List String) (e : String),
      f p = .error e →
        bundle_attempts f (p :: rest) = [p]
        ∧ bundle_loop f (p :: rest) = .error e := by
  intro f p rest e h
  constructor
  · simp [bundle_attempts, h]
  · simp only [bundle_loop, h]
    rfl

/-- Witness for the amended C5 at the concrete failing bundler. -/
theorem bundle_loop_fail_fast_witness :
    bundle_attempts failingBundler ["a", "b"] = ["a"]
    ∧ bundle_loop failingBundler ["a", "b"] = .error "Could not build a" :=
  bundle_loop_fail_fast failingBundler "a" ["b"] "Could not build a" rfl

end NihPlug

namespace NihPlug

/-- An action that touches the filesystem (everything except a diagnostic
message). -/
def FsAction.isFsEffect : FsAction → Bool
  | .log _ => false
  | _ => true

/-- Claim C6: when the located artifact exports no recognized plugin-ABI
marker symbol, `bundle` completes successfully emitting only a diagnostic
message, and no directory, copy or file action is performed under the
bundle output root. -/
theorem bundle_no_interfaces_no_files :
    ∀ (package bundle_name lib_path : String) (target : CompilationTarget),
      bundle_actions package bundle_name lib_path target false
        = [ .log "",
            .log "Not creating any plugin bundles because the package does not export any plugins" ]
      ∧ (bundle_actions package bundle_name lib_path target false).filter
          FsAction.isFsEffect = [] := by
  intro package bundle_name lib_path target
  exact ⟨rfl, rfl⟩

/-- Claim C7: on the `Mac64` target exactly two auxiliary descriptor files
are written under `Contents/`: `PkgInfo` with the literal eight bytes
`BNDL????`, and `Info.plist` containing the literal identifier
`com.nih-plug.<package>` and the package name substituted into the
`CFBundleExecutable`, `CFBundleName` and `CFBundleDisplayName` fields; on
every non-Mac target no auxiliary file is written. -/
theorem macos_aux_files :
    ∀ package : String,
      maybe_create_macos_vst3_bundle package .Mac64
        = [ .write (BUNDLE_HOME ++ "/" ++ package ++ ".vst3/Contents/PkgInfo") "BNDL????",
            .write (BUNDLE_HOME ++ "/" ++ package ++ ".vst3/Contents/Info.plist")
              (infoPlistContent package) ]
      ∧ (∃ a b, infoPlistContent package = a ++ ("com.nih-plug." ++ package) ++ b)
      ∧ (∃ a b, infoPlistContent package
          = a ++ ("<key>CFBundleExecutable</key>\n    <string>" ++ package) ++ b)
      ∧ (∃ a b, infoPlistContent package
          = a ++ ("<key>CFBundleName</key>\n    <string>" ++ package) ++ b)
      ∧ (∃ a b, infoPlistContent package
          = a ++ ("<key>CFBundleDisplayName</key>\n    <string>" ++ package) ++ b)
      ∧ (∀ t : CompilationTarget, t ≠ .Mac64 →
          maybe_create_macos_vst3_bundle package t = []) := by
  intro package
  refine ⟨rfl, ?_, ?_, ?_, ?_, ?_⟩
  · refine ⟨plistHead ++ plistKeyExec ++ package ++ plistIcon,
      plistSep ++ plistKeyName ++ package ++ plistSep ++ plistKeyDisplay
        ++ package ++ plistTail, ?_⟩
    simp [infoPlistContent, plistIdentDomain, String.append_assoc]
  · refine ⟨plistHead,
      plistIcon ++ plistIdentDomain ++ package ++ plistSep ++ plistKeyName
        ++ package ++ plistSep ++ plistKeyDisplay ++ package ++ plistTail, ?_⟩
    simp [infoPlistContent, plistKeyExec, String.append_assoc]
  · refine ⟨plistHead ++ plistKeyExec ++ package ++ plistIcon ++ plistIdentDomain
        ++ package ++ plistSep,
      plistSep ++ plistKeyDisplay ++ package ++ plistTail, ?_⟩
    simp [infoPlistContent, plistKeyName, String.append_assoc]
  · refine ⟨plistHead ++ plistKeyExec ++ package ++ plistIcon ++ plistIdentDomain
        ++ package ++ plistSep ++ plistKeyName ++ package ++ plistSep,
      plistTail, ?_⟩
    simp [infoPlistContent, plistKeyDisplay, String.append_assoc]
  · intro t ht
    simp [maybe_create_macos_vst3_bundle, ht]

/-- Witness for C7: on the non-Mac target `Linux64` no auxiliary file is
written for package `bar`. -/
theorem macos_aux_files_witness :
    maybe_create_macos_vst3_bundle "bar" CompilationTarget.Linux64 = [] :=
  (macos_aux_files "bar").2.2.2.2.2 CompilationTarget.Linux64 (by decide)

/-- Claim C9: with a `bundler.toml` name override present and the `Mac64`
target, the library is copied below `<override>.vst3/` while `PkgInfo` and
`Info.plist` are written below `<package>.vst3/Contents/` using the raw
package identifier (which is also substituted into `Info.plist`); when the
override differs from the package identifier the auxiliary files land in a
different `.vst3` directory than the library. -/
theorem macos_override_aux_divergence :
    ∀ (package bundle_name lib_path : String),
      bundle_actions package bundle_name lib_path .Mac64 true
        = [ .log "",
            .createDirAll (parentPath
              (BUNDLE_HOME ++ "/" ++ (bundle_name ++ ".vst3/Contents/MacOS/" ++ bundle_name))),
            .copy lib_path
              (BUNDLE_HOME ++ "/" ++ (bundle_name ++ ".vst3/Contents/MacOS/" ++ bundle_name)),
            .write (BUNDLE_HOME ++ "/" ++ package ++ ".vst3/Contents/PkgInfo") "BNDL????",
            .write (BUNDLE_HOME ++ "/" ++ package ++ ".vst3/Contents/Info.plist")
              (infoPlistContent package),
            .log ("Created a VST3 bundle at '" ++ parentPath (parentPath (parentPath
              (BUNDLE_HOME ++ "/" ++ (bundle_name ++ ".vst3/Contents/MacOS/" ++ bundle_name)))) ++ "'") ]
      ∧ (package ≠ bundle_name →
          (BUNDLE_HOME ++ "/" ++ package ++ ".vst3")
            ≠ (BUNDLE_HOME ++ "/" ++ bundle_name ++ ".vst3")) := by
  intro package bundle_name lib_path
  constructor
  · rfl
  · intro hne heq
    apply hne
    have hd := congrArg String.data heq
    simp only [String.data_append] at hd
    exact String.ext (List.append_cancel_left (List.append_cancel_right hd))

/-- Witness for C9 at the concrete package `foo` with override `bar`. -/
theorem macos_override_aux_divergence_witness :
    (BUNDLE_HOME ++ "/" ++ "foo" ++ ".vst3")
      ≠ (BUNDLE_HOME ++ "/" ++ "bar" ++ ".vst3") :=
  (macos_override_aux_divergence "foo" "bar" "lib").2 (by decide)

end NihPlug

namespace NihPlug

/-- A model of the filesystem state the bundler mutates: file contents by
path, and the set of existing directories. -/
structure Fs where
  files : String → Option String
  dirs : String → Bool

/-- One step of the bundler's filesystem effects.  `createDirAll` succeeds
also when the tree exists (`fs::create_dir_all` semantics); `write`
unconditionally creates or truncates (`fs::write` semantics); `copy` is
the FileCopier collaborator, modelled from the spec:
`copy_or_reflink(src, dst)` places the source file's bytes at the
destination, overwriting any existing file, and fails when the source is
missing. -/
def applyAction (fs : Fs) : FsAction → Except String Fs
  | .createDirAll p => .ok ⟨fs.files, fun q => q == p || fs.dirs q⟩
  | .copy src dst =>
      match fs.files src with
      | some contents =>
          .ok ⟨fun q => if q = dst then some contents else fs.files q, fs.dirs⟩
      | none => .error "Could not copy library to bundle"
  | .write p contents =>
      .ok ⟨fun q => if q = p then some contents else fs.files q, fs.dirs⟩
  | .log _ => .ok fs

/-- Run a list of filesystem actions in order, stopping at the first
failure. -/
def runActions (fs : Fs) : List FsAction → Except String Fs
  | [] => .ok fs
  | a :: rest =>
      match applyAction fs a with
      | .ok fs' => runActions fs' rest
      | .error e => .error e

/-- Two strings differing within their first eight characters differ. -/
theorem ne_of_take8 {s t : String} (h : s.data.take 8 ≠ t.data.take 8) : s ≠ t :=
  fun he => h (by rw [he])

/-- Taking eight characters of an append stays inside a left part of length
at least eight. -/
theorem take8_append (a b : List Char) (h : 8 ≤ a.length) :
    (a ++ b).take 8 = a.take 8 := by
  rw [List.take_append_eq_append_take]
  have h0 : 8 - a.length = 0 := by omega
  rw [h0]
  simp

/-- Every path below the bundle output root starts with `target/b`. -/
theorem bundled_take8 (s : String) :
    (BUNDLE_HOME ++ "/" ++ s).data.take 8 = "target/b".data := by
  have hd : (BUNDLE_HOME ++ "/" ++ s).data
      = ("target/bundled".data ++ "/".data) ++ s.data := by
    simp [BUNDLE_HOME, String.data_append]
  rw [hd, take8_append _ _ (by decide)]
  decide

/-- As `bundled_take8`, for paths of the form
`BUNDLE_HOME ++ "/" ++ s ++ t`. -/
theorem bundled_take8_two (s t : String) :
    (BUNDLE_HOME ++ "/" ++ s ++ t).data.take 8 = "target/b".data := by
  have hd : (BUNDLE_HOME ++ "/" ++ s ++ t).data
      = ((("target/bundled".data ++ "/".data) ++ s.data) ++ t.data) := by
    simp [BUNDLE_HOME, String.data_append]
  have hlen : 8 ≤ (("target/bundled".data ++ "/".data) ++ s.data).length := by
    rw [List.length_append]
    have h15 : ("target/bundled".data ++ "/".data).length = 15 := by decide
    omega
  rw [hd, take8_append _ _ hlen, take8_append _ _ (by decide)]
  decide

/-- The located artifact path never lies below the bundle output root: its
first eight characters are `target/r`, `target/d` or `target/x`, never
`target/b`. -/
theorem built_lib_not_bundled (package : String) (target : CompilationTarget)
    (rel : Bool) (cross : Option String) (lib : String)
    (h : built_library_path package target rel cross = .ok lib) :
    lib.data.take 8 ≠ "target/b".data := by
  cases cross with
  | none =>
      cases rel with
      | true =>
          simp [built_library_path, target_base] at h
          rw [← h]
          simp only [String.data_append]
          rw [take8_append _ _ (by decide)]
          decide
      | false =>
          simp [built_library_path, target_base] at h
          rw [← h]
          simp only [String.data_append]
          rw [take8_append _ _ (by decide)]
          decide
  | some s =>
      by_cases h1 : s = "x86_64-unknown-linux-gnu"
      · subst h1
        cases rel with
        | true =>
            simp [built_library_path, target_base] at h
            rw [← h]
            simp only [String.data_append]
            rw [take8_append _ _ (by decide)]
            decide
        | false =>
            simp [built_library_path, target_base] at h
            rw [← h]
            simp only [String.data_append]
            rw [take8_append _ _ (by decide)]
            decide
      · by_cases h2 : s = "x86_64-pc-windows-gnu"
        · subst h2
          cases rel with
          | true =>
              simp [built_library_path, target_base] at h
              rw [← h]
              simp only [String.data_append]
              rw [take8_append _ _ (by decide)]
              decide
          | false =>
              simp [built_library_path, target_base] at h
              rw [← h]
              simp only [String.data_append]
              rw [take8_append _ _ (by decide)]
              decide
        · by_cases h3 : s = "x86_64-apple-darwin"
          · subst h3
            cases rel with
            | true =>
                simp [built_library_path, target_base] at h
                rw [← h]
                simp only [String.data_append]
                rw [take8_append _ _ (by decide)]
                decide
            | false =>
                simp [built_library_path, target_base] at h
                rw [← h]
                simp only [String.data_append]
                rw [take8_append _ _ (by decide)]
                decide
          · simp [built_library_path, target_base, h1, h2, h3] at h

end NihPlug

namespace NihPlug

/-- Running the non-Mac bundle shape (diagnostic, directory creation,
artifact placement, diagnostic) twice yields exactly the state of the
first run, provided the copy source differs from the copy destination. -/
theorem runActions_simple_idem (fs0 : Fs) (m1 d lib dst m2 bytes : String)
    (hlib : fs0.files lib = some bytes) (hne : lib ≠ dst) :
    ∃ fs1,
      runActions fs0 [.log m1, .createDirAll d, .copy lib dst, .log m2] = .ok fs1
      ∧ runActions fs1 [.log m1, .createDirAll d, .copy lib dst, .log m2] = .ok fs1 := by
  refine ⟨⟨fun q => if q = dst then some bytes else fs0.files q,
           fun q => q == d || fs0.dirs q⟩, ?_, ?_⟩
  · simp only [runActions, applyAction, hlib]
  · have h2 : (if lib = dst then some bytes else fs0.files lib) = some bytes := by
      rw [if_neg hne, hlib]
    simp only [runActions, applyAction, h2]
    simp only [Except.ok.injEq, Fs.mk.injEq]
    constructor
    · funext q
      by_cases hq : q = dst <;> simp [hq]
    · funext q
      by_cases hq : q == d <;> simp [hq]

/-- Running the Mac bundle shape (diagnostic, directory creation, artifact
placement, the two auxiliary files, diagnostic) twice yields exactly the
state of the first run, provided the copy source differs from every
written path. -/
theorem runActions_mac_idem (fs0 : Fs) (m1 d lib dst p1 c1 p2 c2 m2 bytes : String)
    (hlib : fs0.files lib = some bytes)
    (hne : lib ≠ dst) (hne1 : lib ≠ p1) (hne2 : lib ≠ p2) :
    ∃ fs1,
      runActions fs0
        [.log m1, .createDirAll d, .copy lib dst, .write p1 c1, .write p2 c2, .log m2]
        = .ok fs1
      ∧ runActions fs1
        [.log m1, .createDirAll d, .copy lib dst, .write p1 c1, .write p2 c2, .log m2]
        = .ok fs1 := by
  refine ⟨⟨fun q =>
            if q = p2 then some c2
            else if q = p1 then some c1
            else if q = dst then some bytes
            else fs0.files q,
           fun q => q == d || fs0.dirs q⟩, ?_, ?_⟩
  · simp only [runActions, applyAction, hlib]
  · have h2 : (if lib = p2 then some c2
        else if lib = p1 then some c1
        else if lib = dst then some bytes
        else fs0.files lib) = some bytes := by
      rw [if_neg hne2, if_neg hne1, if_neg hne, hlib]
    simp only [runActions, applyAction, h2]
    simp only [Except.ok.injEq, Fs.mk.injEq]
    constructor
    · funext q
      by_cases hq2 : q = p2 <;> by_cases hq1 : q = p1 <;> by_cases hqd : q = dst <;>
        simp [hq2, hq1, hqd]
    · funext q
      by_cases hq : q == d <;> simp [hq]

end NihPlug

namespace NihPlug

/-- Claim C8: with the same package, flags and artifact, running the
bundling pipeline's filesystem actions twice leaves exactly the state
produced by the first run — directory creation of an existing tree
succeeds, auxiliary emission overwrites, and artifact placement over an
existing destination succeeds with the same bytes. -/
theorem bundle_actions_idempotent :
    ∀ (package bundle_name : String) (target : CompilationTarget)
      (is_release_build : Bool) (cross : Option String) (lib bytes : String) (fs0 : Fs),
      built_library_path package target is_release_build cross = .ok lib →
      fs0.files lib = some bytes →
      ∃ fs1,
        runActions fs0 (bundle_actions package bundle_name lib target true) = .ok fs1
        ∧ runActions fs1 (bundle_actions package bundle_name lib target true) = .ok fs1 := by
  intro package bundle_name target rel cross lib bytes fs0 hpath hlib
  have hnb := built_lib_not_bundled package target rel cross lib hpath
  cases target with
  | Linux64 =>
      have hne : lib ≠ BUNDLE_HOME ++ "/"
          ++ vst3_bundle_library_name bundle_name CompilationTarget.Linux64 :=
        ne_of_take8 (by rw [bundled_take8]; exact hnb)
      exact runActions_simple_idem fs0 "" _ lib _ _ bytes hlib hne
  | Linux32 =>
      have hne : lib ≠ BUNDLE_HOME ++ "/"
          ++ vst3_bundle_library_name bundle_name CompilationTarget.Linux32 :=
        ne_of_take8 (by rw [bundled_take8]; exact hnb)
      exact runActions_simple_idem fs0 "" _ lib _ _ bytes hlib hne
  | Windows64 =>
      have hne : lib ≠ BUNDLE_HOME ++ "/"
          ++ vst3_bundle_library_name bundle_name CompilationTarget.Windows64 :=
        ne_of_take8 (by rw [bundled_take8]; exact hnb)
      exact runActions_simple_idem fs0 "" _ lib _ _ bytes hlib hne
  | Windows32 =>
      have hne : lib ≠ BUNDLE_HOME ++ "/"
          ++ vst3_bundle_library_name bundle_name CompilationTarget.Windows32 :=
        ne_of_take8 (by rw [bundled_take8]; exact hnb)
      exact runActions_simple_idem fs0 "" _ lib _ _ bytes hlib hne
  | Mac64 =>
      have hne : lib ≠ BUNDLE_HOME ++ "/"
          ++ vst3_bundle_library_name bundle_name CompilationTarget.Mac64 :=
        ne_of_take8 (by rw [bundled_take8]; exact hnb)
      have hne1 : lib ≠ BUNDLE_HOME ++ "/" ++ package ++ ".vst3/Contents/PkgInfo" :=
        ne_of_take8 (by rw [bundled_take8_two]; exact hnb)
      have hne2 : lib ≠ BUNDLE_HOME ++ "/" ++ package ++ ".vst3/Contents/Info.plist" :=
        ne_of_take8 (by rw [bundled_take8_two]; exact hnb)
      exact runActions_mac_idem fs0 "" _ lib _ _ _ _ _ _ bytes hlib hne hne1 hne2

/-- Witness for C8 at a concrete package, target and filesystem. -/
theorem bundle_actions_idempotent_witness :
    ∃ fs1,
      runActions
        ⟨fun q => if q = "target/debug/libfoo.so" then some "ELFBYTES" else none,
         fun _ => false⟩
        (bundle_actions "foo" "foo" "target/debug/libfoo.so"
          CompilationTarget.Linux64 true) = .ok fs1
      ∧ runActions fs1
          (bundle_actions "foo" "foo" "target/debug/libfoo.so"
            CompilationTarget.Linux64 true) = .ok fs1 :=
  bundle_actions_idempotent "foo" "foo" CompilationTarget.Linux64 false none
    "target/debug/libfoo.so" "ELFBYTES"
    ⟨fun q => if q = "target/debug/libfoo.so" then some "ELFBYTES" else none,
     fun _ => false⟩
    (by rfl) (by simp)

end NihPlug

namespace NihPlug

/-- Reinterpretation of a byte as a C `char` (signed on the platforms the
wrapper targets), as done by the unsafe slice cast in `strlcpy`. -/
def byteToCChar (b : Nat) : Int :=
  if b < 128 then (b : Int) else (b : Int) - 256

/-- `strlcpy` from `src/wrapper/util.rs`, with the destination as a list of
C `char` values and the source as its UTF-8 byte sequence (`src.as_bytes()`,
so `src.len()` is `src_bytes.length`).  An empty destination is returned
unchanged; otherwise `min (dest.length - 1) src.length` bytes are copied
and a null terminator is placed right after them. -/
def strlcpy (dest : List Int) (src_bytes : List Nat) : List Int :=
  if dest.isEmpty then dest
  else
    ((src_bytes.take (min (dest.length - 1) src_bytes.length)).map byteToCChar)
      ++ [0] ++ dest.drop (min (dest.length - 1) src_bytes.length + 1)

/-- Claim C10: `strlcpy` never writes out of bounds: an empty destination is
left unchanged, and otherwise the destination keeps its length, its first
`min (dest.len - 1, src.len)` entries are the copied source bytes, the
entry at index `min (dest.len - 1, src.len)` is the null terminator, the
entries after it are unchanged, and the result always contains a null. -/
theorem strlcpy_spec :
    ∀ (dest : List Int) (src : List Nat),
      (dest = [] → strlcpy dest src = dest)
      ∧ (dest ≠ [] →
          (strlcpy dest src).length = dest.length
          ∧ (strlcpy dest src).take (min (dest.length - 1) src.length)
              = (src.take (min (dest.length - 1) src.length)).map byteToCChar
          ∧ (strlcpy dest src)[min (dest.length - 1) src.length]? = some 0
          ∧ (strlcpy dest src).drop (min (dest.length - 1) src.length + 1)
              = dest.drop (min (dest.length - 1) src.length + 1)
          ∧ (0 : Int) ∈ strlcpy dest src) := by
  intro dest src
  constructor
  · intro h
    subst h
    rfl
  · intro h
    have hlen : 1 ≤ dest.length := by
      cases dest with
      | nil => exact absurd rfl h
      | cons a t => simp
    have hempty : dest.isEmpty = false := by
      cases dest with
      | nil => exact absurd rfl h
      | cons a t => rfl
    have hk1 : min (dest.length - 1) src.length ≤ src.length := Nat.min_le_right _ _
    have hk2 : min (dest.length - 1) src.length ≤ dest.length - 1 := Nat.min_le_left _ _
    have hA : ((src.take (min (dest.length - 1) src.length)).map byteToCChar).length
        = min (dest.length - 1) src.length := by
      rw [List.length_map, List.length_take]
      omega
    refine ⟨?_, ?_, ?_, ?_, ?_⟩
    · simp only [strlcpy, hempty, Bool.false_eq_true, if_false]
      rw [List.append_assoc, List.length_append, List.length_append, hA]
      simp only [List.length_cons, List.length_nil, List.length_drop]
      omega
    · simp only [strlcpy, hempty, Bool.false_eq_true, if_false]
      rw [List.append_assoc, List.take_append_eq_append_take, hA]
      simp
    · simp only [strlcpy, hempty, Bool.false_eq_true, if_false]
      rw [List.append_assoc, List.getElem?_append, hA]
      simp
    · simp only [strlcpy, hempty, Bool.false_eq_true, if_false]
      rw [List.append_assoc, List.drop_append_eq_append_drop]
      have hnil : ((src.take (min (dest.length - 1) src.length)).map byteToCChar).drop
          (min (dest.length - 1) src.length + 1) = [] :=
        List.drop_eq_nil_of_le (by rw [hA]; omega)
      have hd : (min (dest.length - 1) src.length + 1)
          - ((src.take (min (dest.length - 1) src.length)).map byteToCChar).length = 1 := by
        rw [hA]; omega
      rw [hnil, hd]
      simp
    · simp [strlcpy, hempty]

/-- Witness for C10 at a concrete three-byte destination and two-byte
source. -/
theorem strlcpy_spec_witness :
    (strlcpy [1, 1, 1] [65, 66]).length = 3
    ∧ (strlcpy [1, 1, 1] [65, 66])[min (2 : Nat) 2]? = some 0 :=
  ⟨((strlcpy_spec [1, 1, 1] [65, 66]).2 (by decide)).1,
   ((strlcpy_spec [1, 1, 1] [65, 66]).2 (by decide)).2.2.1⟩

end NihPlug

namespace NihPlug

/-! ### The binary container parser

Modelled from the spec: the `symbols` module of `xtask` (invoked as
`symbols::exported(&lib_path, "GetPluginFactory")` in `bundle`) is not part
of the analyzed sources — only its call-site contract is.  The definitions
below follow the spec's parsing algorithm: magic-number dispatch over
ELF / Mach-O / PE, passive export/symbol-table walks, and bounds checks on
every offset (an out-of-range offset is `ParseError.Malformed`, an unknown
magic is `ParseError.UnrecognizedFormat`).  The byte-level table layouts
are those of the 64-bit ELF, thin and fat Mach-O (both endiannesses, 32-
and 64-bit symbol entries) and PE32/PE32+ container formats. -/

/-- Parse failures of the binary container parser, from the spec's error
taxonomy. -/
inductive ParseError where
  | UnrecognizedFormat
  | Malformed
deriving DecidableEq, Repr

/-- A raw byte buffer. -/
abbrev Buf := List Nat

/-- Read one little- or big-endian 16-bit value; `none` when any byte is
out of range. -/
def readU16 (le : Bool) (b : Buf) (i : Nat) : Option Nat := do
  let x0 ← b[i]?
  let x1 ← b[i + 1]?
  pure (if le then x0 + 256 * x1 else x1 + 256 * x0)

/-- Read one little- or big-endian 32-bit value; `none` when any byte is
out of range. -/
def readU32 (le : Bool) (b : Buf) (i : Nat) : Option Nat := do
  let x0 ← b[i]?
  let x1 ← b[i + 1]?
  let x2 ← b[i + 2]?
  let x3 ← b[i + 3]?
  pure (if le then x0 + 256 * (x1 + 256 * (x2 + 256 * x3))
        else x3 + 256 * (x2 + 256 * (x1 + 256 * x0)))

/-- Read one little- or big-endian 64-bit value; `none` when any byte is
out of range. -/
def readU64 (le : Bool) (b : Buf) (i : Nat) : Option Nat := do
  let lo ← readU32 le b (if le then i else i + 4)
  let hi ← readU32 le b (if le then i + 4 else i)
  pure (lo + 4294967296 * hi)

/-- Turn a failed bounds-checked read into `ParseError.Malformed`. -/
def liftRead {α : Type} : Option α → Except ParseError α
  | some a => .ok a
  | none => .error .Malformed

/-- Fail with `ParseError.Malformed` unless the condition holds. -/
def ensure (c : Prop) [Decidable c] : Except ParseError Unit :=
  if c then .ok () else .error .Malformed

/-- Read the null-terminated byte string starting at `off`; `none` when no
terminator exists inside the buffer. -/
def readCString (b : Buf) (off : Nat) : Option Buf :=
  let rest := b.drop off
  if rest.contains 0 then some (rest.takeWhile (fun c => c != 0)) else none

/-- The byte sequence of an ASCII symbol name. -/
def symbolBytes (s : String) : Buf := s.toList.map Char.toNat

/-- Fold a fallible per-index query over a list of indices, true as soon as
one index answers true. -/
def anyIndex (f : Nat → Except ParseError Bool) : List Nat → Except ParseError Bool
  | [] => .ok false
  | i :: rest =>
      match f i with
      | .ok true => .ok true
      | .ok false => anyIndex f rest
      | .error e => .error e

/-- Find the first section-header index whose `sh_type` field equals
`stype` (64-bit ELF section header layout). -/
def elfFindSection (b : Buf) (le : Bool) (shoff stype : Nat) :
    List Nat → Except ParseError (Option Nat)
  | [] => .ok none
  | i :: rest => do
      let t ← liftRead (readU32 le b (shoff + 64 * i + 4))
      if t = stype then pure (some i) else elfFindSection b le shoff stype rest

/-- Modelled from the spec: the ELF path of the parser.  Walk the section
header table to find the dynamic symbol table (`SHT_DYNSYM`) and its linked
string table; report whether any defined global or weak symbol's
null-terminated name equals `sym`.  A missing dynamic symbol table means
the artifact exports nothing. -/
def parseElf (b : Buf) (sym : Buf) : Except ParseError Bool := do
  let cls ← liftRead b[4]?
  let dat ← liftRead b[5]?
  let le ← (match dat with
    | 1 => Except.ok true
    | 2 => Except.ok false
    | _ => Except.error ParseError.Malformed)
  ensure (cls = 2)
  let shoff ← liftRead (readU64 le b 40)
  let shentsize ← liftRead (readU16 le b 58)
  let shnum ← liftRead (readU16 le b 60)
  ensure (shentsize = 64)
  ensure (shoff + shnum * 64 ≤ b.length)
  let dynIdx ← elfFindSection b le shoff 11 (List.range shnum)
  match dynIdx with
  | none => pure false
  | some i => do
      let symOff ← liftRead (readU64 le b (shoff + 64 * i + 24))
      let symSize ← liftRead (readU64 le b (shoff + 64 * i + 32))
      let link ← liftRead (readU32 le b (shoff + 64 * i + 40))
      ensure (symOff + symSize ≤ b.length)
      ensure (link < shnum)
      let strOff ← liftRead (readU64 le b (shoff + 64 * link + 24))
      let strSize ← liftRead (readU64 le b (shoff + 64 * link + 32))
      ensure (strOff + strSize ≤ b.length)
      anyIndex (fun j => do
          let nameOff ← liftRead (readU32 le b (symOff + 24 * j))
          let info ← liftRead b[symOff + 24 * j + 4]?
          let shndx ← liftRead (readU16 le b (symOff + 24 * j + 6))
          if (info / 16 = 1 ∨ info / 16 = 2) ∧ shndx ≠ 0 then do
            ensure (nameOff < strSize)
            match readCString b (strOff + nameOff) with
            | some nm => Except.ok (nm == sym)
            | none => Except.error ParseError.Malformed
          else pure false)
        (List.range (symSize / 24))

/-- Walk the Mach-O load commands, collecting the symbol-table command
(`LC_SYMTAB`, fields `symoff`/`nsyms`/`stroff`/`strsize`) and the dynamic
symbol-table command (`LC_DYSYMTAB`, fields `iextdefsym`/`nextdefsym`). -/
def machoWalkCommands (b : Buf) (le : Bool) :
    Nat → Nat → Nat → Option (Nat × Nat × Nat × Nat) → Option (Nat × Nat) →
    Except ParseError (Option (Nat × Nat × Nat × Nat) × Option (Nat × Nat))
  | 0, _, _, symtab, dysym => .ok (symtab, dysym)
  | n + 1, off, endOff, symtab, dysym => do
      let cmd ← liftRead (readU32 le b off)
      let cmdsize ← liftRead (readU32 le b (off + 4))
      ensure (8 ≤ cmdsize)
      ensure (off + cmdsize ≤ endOff)
      if cmd = 2 then do
        ensure (24 ≤ cmdsize)
        let symoff ← liftRead (readU32 le b (off + 8))
        let nsyms ← liftRead (readU32 le b (off + 12))
        let stroff ← liftRead (readU32 le b (off + 16))
        let strsize ← liftRead (readU32 le b (off + 20))
        machoWalkCommands b le n (off + cmdsize) endOff
          (some (symoff, nsyms, stroff, strsize)) dysym
      else if cmd = 11 then do
        ensure (24 ≤ cmdsize)
        let iext ← liftRead (readU32 le b (off + 16))
        let next ← liftRead (readU32 le b (off + 20))
        machoWalkCommands b le n (off + cmdsize) endOff symtab (some (iext, next))
      else machoWalkCommands b le n (off + cmdsize) endOff symtab dysym

/-- Modelled from the spec: the thin Mach-O path of the parser.  Dispatch
on the four thin magics (32/64-bit, either byte order), walk the load
commands for `LC_SYMTAB` and `LC_DYSYMTAB`, and scan the externally
defined symbol range of the symbol table, resolving names through the
string table.  When either command is absent the artifact exports
nothing. -/
def parseMachOThin (b : Buf) (sym : Buf) : Except ParseError Bool := do
  let magic ← liftRead (readU32 true b 0)
  let mode ← (match magic with
    | 0xfeedfacf => Except.ok (true, true)
    | 0xcffaedfe => Except.ok (false, true)
    | 0xfeedface => Except.ok (true, false)
    | 0xcefaedfe => Except.ok (false, false)
    | _ => Except.error ParseError.Malformed)
  let le := mode.1
  let headerSize := if mode.2 then 32 else 28
  let entrySize := if mode.2 then 16 else 12
  let ncmds ← liftRead (readU32 le b 16)
  let sizeofcmds ← liftRead (readU32 le b 20)
  ensure (headerSize + sizeofcmds ≤ b.length)
  ensure (ncmds * 8 ≤ sizeofcmds)
  let tabs ← machoWalkCommands b le ncmds headerSize (headerSize + sizeofcmds) none none
  match tabs with
  | (some (symoff, nsyms, stroff, strsize), some (iext, next)) => do
      ensure (symoff + nsyms * entrySize ≤ b.length)
      ensure (stroff + strsize ≤ b.length)
      ensure (iext + next ≤ nsyms)
      anyIndex (fun j => do
          let strx ← liftRead (readU32 le b (symoff + entrySize * (iext + j)))
          ensure (strx < strsize)
          match readCString b (stroff + strx) with
          | some nm => Except.ok (nm == sym)
          | none => Except.error ParseError.Malformed)
        (List.range next)
  | _ => pure false

/-- Modelled from the spec: the fat/universal Mach-O path.  Read the
big-endian fat header, take the first architecture slice (bounds-checked)
and parse it as a thin Mach-O image. -/
def parseMachOFat (b : Buf) (sym : Buf) : Except ParseError Bool := do
  let nfat ← liftRead (readU32 false b 4)
  ensure (1 ≤ nfat)
  ensure (8 + nfat * 20 ≤ b.length)
  let archOff ← liftRead (readU32 false b 16)
  let archSize ← liftRead (readU32 false b 20)
  ensure (archOff + archSize ≤ b.length)
  parseMachOThin ((b.drop archOff).take archSize) sym

/-- Map a PE relative virtual address to a file offset through the section
header table (`VirtualAddress`, `SizeOfRawData`, `PointerToRawData`); an
address covered by no section is out of range. -/
def peFindSection (b : Buf) (secOff rva : Nat) : List Nat → Except ParseError Nat
  | [] => .error .Malformed
  | i :: rest => do
      let va ← liftRead (readU32 true b (secOff + 40 * i + 12))
      let raw ← liftRead (readU32 true b (secOff + 40 * i + 16))
      let ptr ← liftRead (readU32 true b (secOff + 40 * i + 20))
      if va ≤ rva ∧ rva < va + raw then pure (ptr + (rva - va))
      else peFindSection b secOff rva rest

/-- Modelled from the spec: the PE path of the parser.  Follow `e_lfanew`
to the PE signature, read the optional header (PE32 or PE32+), locate the
export data directory — an absent export directory means no exports, not
an error — and walk the export name pointer table, resolving each name
through the section mapping. -/
def parsePe (b : Buf) (sym : Buf) : Except ParseError Bool := do
  let peoff ← liftRead (readU32 true b 60)
  let s0 ← liftRead b[peoff]?
  let s1 ← liftRead b[peoff + 1]?
  let s2 ← liftRead b[peoff + 2]?
  let s3 ← liftRead b[peoff + 3]?
  ensure (s0 = 80 ∧ s1 = 69 ∧ s2 = 0 ∧ s3 = 0)
  let nsec ← liftRead (readU16 true b (peoff + 6))
  let optSize ← liftRead (readU16 true b (peoff + 20))
  let optMagic ← liftRead (readU16 true b (peoff + 24))
  let isPlus ← (match optMagic with
    | 0x10b => Except.ok false
    | 0x20b => Except.ok true
    | _ => Except.error ParseError.Malformed)
  let nRva ← liftRead (readU32 true b (peoff + 24 + (if isPlus then 108 else 92)))
  if nRva = 0 then pure false else do
  let expRva ← liftRead (readU32 true b (peoff + 24 + (if isPlus then 112 else 96)))
  if expRva = 0 then pure false else do
  let secOff := peoff + 24 + optSize
  ensure (secOff + nsec * 40 ≤ b.length)
  let expOff ← peFindSection b secOff expRva (List.range nsec)
  let nNames ← liftRead (readU32 true b (expOff + 24))
  let namesRva ← liftRead (readU32 true b (expOff + 32))
  let namesOff ← peFindSection b secOff namesRva (List.range nsec)
  ensure (namesOff + 4 * nNames ≤ b.length)
  anyIndex (fun j => do
      let nameRva ← liftRead (readU32 true b (namesOff + 4 * j))
      let nameOff ← peFindSection b secOff nameRva (List.range nsec)
      match readCString b nameOff with
      | some nm => Except.ok (nm == sym)
      | none => Except.error ParseError.Malformed)
    (List.range nNames)

/-- Modelled from the spec: `exports_symbol(bytes, symbol)`, the uniform
"does this artifact export the symbol named `symbol`?" query of the
`symbols` module.  Dispatch on the magic bytes — ELF, the four thin Mach-O
magics, the two fat Mach-O magics, PE `MZ` — and run the per-format table
walk; an unknown magic is `ParseError.UnrecognizedFormat`. -/
def exports_symbol (b : Buf) (symbol : String) : Except ParseError Bool :=
  let sym := symbolBytes symbol
  if b[0]? = some 0x7f ∧ b[1]? = some 0x45 ∧ b[2]? = some 0x4c ∧ b[3]? = some 0x46 then
    parseElf b sym
  else if b[0]? = some 0xcf ∧ b[1]? = some 0xfa ∧ b[2]? = some 0xed ∧ b[3]? = some 0xfe then
    parseMachOThin b sym
  else if b[0]? = some 0xfe ∧ b[1]? = some 0xed ∧ b[2]? = some 0xfa ∧ b[3]? = some 0xcf then
    parseMachOThin b sym
  else if b[0]? = some 0xce ∧ b[1]? = some 0xfa ∧ b[2]? = some 0xed ∧ b[3]? = some 0xfe then
    parseMachOThin b sym
  else if b[0]? = some 0xfe ∧ b[1]? = some 0xed ∧ b[2]? = some 0xfa ∧ b[3]? = some 0xce then
    parseMachOThin b sym
  else if b[0]? = some 0xca ∧ b[1]? = some 0xfe ∧ b[2]? = some 0xba ∧ b[3]? = some 0xbe then
    parseMachOFat b sym
  else if b[0]? = some 0xbe ∧ b[1]? = some 0xba ∧ b[2]? = some 0xfe ∧ b[3]? = some 0xca then
    parseMachOFat b sym
  else if b[0]? = some 0x4d ∧ b[1]? = some 0x5a then
    parsePe b sym
  else .error .UnrecognizedFormat

end NihPlug

namespace NihPlug

/-- An ELF buffer truncated in the middle of its header: magic, class and
endianness bytes only. -/
def elfTruncatedMidHeader : Buf := [0x7f, 0x45, 0x4c, 0x46, 2, 1]

/-- A complete 64-byte ELF header whose section header table offset
(`e_shoff = 4096`, with `e_shnum = 1`) lies outside the buffer. -/
def elfOutOfRangeShoff : Buf :=
  [0x7f, 0x45, 0x4c, 0x46, 2, 1, 0, 0] ++ List.replicate 32 0
    ++ [0, 16, 0, 0, 0, 0, 0, 0] ++ List.replicate 10 0 ++ [64, 0] ++ [1, 0] ++ [0, 0]

/-- A Mach-O buffer truncated in the middle of its header: the 64-bit
little-endian magic only. -/
def machoTruncatedMidHeader : Buf := [0xcf, 0xfa, 0xed, 0xfe]

/-- A Mach-O image with valid header, `LC_SYMTAB` and `LC_DYSYMTAB`
commands whose symbol table offset (`symoff = 65536`, one symbol) lies
outside the 80-byte buffer. -/
def machoOutOfRangeSymoff : Buf :=
  [0xcf, 0xfa, 0xed, 0xfe] ++ List.replicate 12 0
    ++ [2, 0, 0, 0] ++ [48, 0, 0, 0] ++ List.replicate 8 0
    ++ [2, 0, 0, 0] ++ [24, 0, 0, 0] ++ [0, 0, 1, 0] ++ [1, 0, 0, 0]
    ++ [0, 0, 0, 0] ++ [0, 0, 0, 0]
    ++ [11, 0, 0, 0] ++ [24, 0, 0, 0] ++ [0, 0, 0, 0] ++ [0, 0, 0, 0]
    ++ [0, 0, 0, 0] ++ [1, 0, 0, 0]

/-- A PE buffer truncated in the middle of its DOS header: the `MZ` magic
only. -/
def peTruncatedMidHeader : Buf := [0x4d, 0x5a]

/-- A 64-byte DOS header whose PE header offset (`e_lfanew = 65536`) lies
outside the buffer. -/
def peOutOfRangeTableOffset : Buf :=
  [0x4d, 0x5a] ++ List.replicate 58 0 ++ [0, 0, 1, 0]

/-- Claim C3: `exports_symbol` is total over arbitrary buffers and symbol
names — every offset is bounds-checked, out-of-range reads surface as
`ParseError`, never as a crash: a buffer too short to hold any magic is
`UnrecognizedFormat`, and for each of the three container formats both a
buffer truncated mid-header and one with an out-of-range table offset
yield `ParseError.Malformed`, for every queried symbol. -/
theorem exports_symbol_bounds_safety :
    (∀ (b : Buf) (s : String), b.length < 2 →
        exports_symbol b s = .error .UnrecognizedFormat)
    ∧ (∀ s : String,
        exports_symbol elfTruncatedMidHeader s = .error .Malformed
        ∧ exports_symbol elfOutOfRangeShoff s = .error .Malformed
        ∧ exports_symbol machoTruncatedMidHeader s = .error .Malformed
        ∧ exports_symbol machoOutOfRangeSymoff s = .error .Malformed
        ∧ exports_symbol peTruncatedMidHeader s = .error .Malformed
        ∧ exports_symbol peOutOfRangeTableOffset s = .error .Malformed) := by
  constructor
  · intro b s h
    match b with
    | [] => rfl
    | [x] => simp [exports_symbol]
    | x :: y :: t => simp at h; omega
  · intro s
    refine ⟨rfl, rfl, rfl, rfl, rfl, rfl⟩

/-- Witness for C3 at the empty buffer and the concrete marker symbol. -/
theorem exports_symbol_bounds_safety_witness :
    exports_symbol [] "GetPluginFactory" = .error .UnrecognizedFormat :=
  exports_symbol_bounds_safety.1 [] "GetPluginFactory" (by decide)

end NihPlug
